import Mathlib

/-!
Verification of the daemon supervisor embedded in the desktop shell
(`src/desktop/src-tauri/src/main.rs`).

The Rust source is shallowly embedded: the outcome of each HTTP request to
the health endpoint is an explicit `HttpResult`, the success or failure of
each `Command::spawn` call is an explicit boolean oracle on paths, and every
operation returns its result together with a trace of the observable events
it performed (probes, sleeps, spawn attempts), in order.
-/

/-- Outcome of one `reqwest::get` call: a response carrying an HTTP status
code, or a transport error (connection refused, timeout, reset, ...). -/
inductive HttpResult where
  | ok (status : Nat)
  | err
deriving DecidableEq, Repr

/-- `reqwest::StatusCode::is_success`: the 2xx class. -/
def statusIsSuccess (status : Nat) : Bool :=
  200 ≤ status && status ≤ 299

/-- `check_daemon`: one GET to `http://localhost:8080/api/health`; a response
with a success-class status yields `true`, anything else yields `false`. -/
def check_daemon (r : HttpResult) : Bool :=
  match r with
  | .ok status => statusIsSuccess status
  | .err => false

/-- Environment of `start_daemon`: the target platform, the `HOME`
environment variable (`none` when `std::env::var` fails), and which
paths `Command::new(path).arg("daemon").spawn()` succeeds on. -/
structure Env where
  os_windows : Bool
  home : Option String
  spawnOk : String → Bool

/-- The platform-dependent executable name chosen by `start_daemon`. -/
def binaryName (e : Env) : String :=
  if e.os_windows then "ugudu.exe" else "ugudu"

/-- `std::env::var("HOME").unwrap_or_default()`. -/
def homeStr (e : Env) : String :=
  e.home.getD ""

/-- The ordered candidate list built by `start_daemon`. -/
def candidatePaths (e : Env) : List String :=
  [ "/usr/local/bin/" ++ binaryName e,
    homeStr e ++ "/.local/bin/" ++ binaryName e,
    homeStr e ++ "/go/bin/" ++ binaryName e,
    binaryName e ]

/-- The `for path in paths` loop of `start_daemon`: spawn each candidate in
order, stop at the first success.  Returns the result together with the
list of paths on which a spawn was attempted, in order. -/
def tryPaths (spawnOk : String → Bool) : List String → Except String Unit × List String
  | [] => (Except.error "Could not find or start ugudu daemon", [])
  | p :: ps =>
    if spawnOk p then (Except.ok (), [p])
    else
      let r := tryPaths spawnOk ps
      (r.1, p :: r.2)

/-- `start_daemon`: build the candidate list and try each in order. -/
def start_daemon (e : Env) : Except String Unit × List String :=
  tryPaths e.spawnOk (candidatePaths e)

/-- Observable events of the orchestration operations, in program order. -/
inductive Event where
  | probe (result : Bool)
  | sleep (ms : Nat)
  | spawnAttempt (path : String)
deriving DecidableEq, Repr

/-- Whether an event is a health probe. -/
def Event.isProbe : Event → Bool
  | .probe _ => true
  | _ => false

/-- Whether an event is a spawn attempt. -/
def Event.isSpawn : Event → Bool
  | .spawnAttempt _ => true
  | _ => false

/-- Number of health probes in a trace. -/
def countProbes (tr : List Event) : Nat :=
  (tr.filter Event.isProbe).length

/-- Number of spawn attempts in a trace. -/
def countSpawns (tr : List Event) : Nat :=
  (tr.filter Event.isSpawn).length

/-- The world an orchestration call runs in: `net n` is the outcome of the
n-th HTTP request issued during the call (0-indexed), and `env` drives
`start_daemon`. -/
structure World where
  net : Nat → HttpResult
  env : Env

/-- The `for _ in 0..30` poll loop of `ensure_daemon`: each iteration sleeps
500 ms, then probes; the loop returns `started` on the first reachable
probe, and `Daemon failed to start` when the budget is exhausted.
`i` is the index of the next HTTP request, `fuel` the remaining budget. -/
def pollLoop (net : Nat → HttpResult) : Nat → Nat → Except String String × List Event
  | _, 0 => (Except.error "Daemon failed to start", [])
  | i, fuel + 1 =>
    if check_daemon (net i) then
      (Except.ok "started", [Event.sleep 500, Event.probe true])
    else
      let r := pollLoop net (i + 1) fuel
      (r.1, Event.sleep 500 :: Event.probe false :: r.2)

/-- `ensure_daemon`: probe; if reachable return `already_running`; else
launch (propagating `start_daemon`'s error via `?`), then poll with a
budget of 30 attempts at 500 ms intervals. -/
def ensure_daemon (w : World) : Except String String × List Event :=
  if check_daemon (w.net 0) then
    (Except.ok "already_running", [Event.probe true])
  else
    let s := start_daemon w.env
    let spawnTr := s.2.map Event.spawnAttempt
    match s.1 with
    | Except.error msg => (Except.error msg, Event.probe false :: spawnTr)
    | Except.ok _ =>
      let r := pollLoop w.net 1 30
      (r.1, Event.probe false :: spawnTr ++ r.2)

/-- `get_daemon_status`: delegate to the prober, no launching. -/
def get_daemon_status (w : World) : Except String String × List Event :=
  if check_daemon (w.net 0) then
    (Except.ok "running", [Event.probe true])
  else
    (Except.error "Daemon is not running", [Event.probe false])

/-- The startup warm-up task spawned in `main`'s setup closure: probe once;
if unreachable, attempt one launch (result discarded) and sleep 2 s. -/
def warm_up (w : World) : List Event :=
  if check_daemon (w.net 0) then
    [Event.probe true]
  else
    Event.probe false :: (start_daemon w.env).2.map Event.spawnAttempt
      ++ [Event.sleep 2000]

/-- Outcome of running a piece of code that may panic. -/
inductive Outcome (α : Type) where
  | val (a : α)
  | panicked (msg : String)
deriving DecidableEq, Repr

/-- Whether an `Outcome` is a returned value rather than a panic. -/
def Outcome.isVal {α : Type} : Outcome α → Bool
  | .val _ => true
  | .panicked _ => false

/-- `main`'s setup closure: `app.get_webview_window("main").unwrap()`
panics when the window is absent; otherwise the closure spawns the
warm-up task and returns `Ok(())`. -/
def setupClosure (getWebviewWindow : String → Option Unit) : Outcome Unit :=
  match getWebviewWindow "main" with
  | some _ => Outcome.val ()
  | none => Outcome.panicked "called Option unwrap on a None value"

/-- The tail of `main`: `.run(ctx).expect("error while running tauri
application")` aborts the process when `run` returns an error. -/
def mainRun (runResult : Except Unit Unit) : Outcome Unit :=
  match runResult with
  | Except.ok _ => Outcome.val ()
  | Except.error _ => Outcome.panicked "error while running tauri application"

/-- Example environment: Unix, `HOME` set, every spawn succeeds. -/
def envAll : Env :=
  ⟨false, some "/home/user", fun _ => true⟩

/-- Example environment: Unix, `HOME` set, no spawn succeeds. -/
def envNone : Env :=
  ⟨false, some "/home/user", fun _ => false⟩

/-- Example environment: Unix, `HOME` missing, only the bare name spawns. -/
def envNoHome : Env :=
  ⟨false, none, fun s => s == "ugudu"⟩

/-- Example environment where exactly the user-local candidate spawns. -/
def envSecond : Env :=
  ⟨false, some "/home/user", fun s => s == "/home/user/.local/bin/ugudu"⟩

/-- Endpoint reachable on every request. -/
def netUp : Nat → HttpResult :=
  fun _ => HttpResult.ok 200

/-- Endpoint unreachable on every request. -/
def netDown : Nat → HttpResult :=
  fun _ => HttpResult.err

/-- Endpoint unreachable before the k-th request, reachable from it on. -/
def netUpFrom (k : Nat) : Nat → HttpResult :=
  fun n => if n < k then HttpResult.err else HttpResult.ok 200

/-! ## Helper lemmas -/

theorem tryPaths_all_fail (spawnOk : String → Bool) :
    ∀ l : List String, (∀ p ∈ l, spawnOk p = false) →
      tryPaths spawnOk l = (Except.error "Could not find or start ugudu daemon", l) := by
  intro l
  induction l with
  | nil => intro _; rfl
  | cons p ps ih =>
    intro h
    have hp : spawnOk p = false := h p (List.mem_cons_self p ps)
    have hps := ih (fun q hq => h q (List.mem_cons_of_mem p hq))
    simp [tryPaths, hp, hps]

theorem tryPaths_first_success (spawnOk : String → Bool)
    (l₁ : List String) (p : String) (l₂ : List String)
    (hfail : ∀ q ∈ l₁, spawnOk q = false) (hp : spawnOk p = true) :
    tryPaths spawnOk (l₁ ++ p :: l₂) = (Except.ok (), l₁ ++ [p]) := by
  induction l₁ with
  | nil => simp [tryPaths, hp]
  | cons q qs ih =>
    have hq : spawnOk q = false := hfail q (List.mem_cons_self q qs)
    have := ih (fun r hr => hfail r (List.mem_cons_of_mem q hr))
    simp [tryPaths, hq, this]

theorem tryPaths_error_iff (spawnOk : String → Bool) :
    ∀ l : List String,
      ((tryPaths spawnOk l).1 = Except.error "Could not find or start ugudu daemon" ↔
        ∀ p ∈ l, spawnOk p = false) := by
  intro l
  induction l with
  | nil => simp [tryPaths]
  | cons p ps ih =>
    by_cases hp : spawnOk p = true
    · simp [tryPaths, hp]
    · simp only [Bool.not_eq_true] at hp
      simp [tryPaths, hp, ih]

theorem tryPaths_result (spawnOk : String → Bool) :
    ∀ l : List String,
      (tryPaths spawnOk l).1 = Except.ok () ∨
        (tryPaths spawnOk l).1 = Except.error "Could not find or start ugudu daemon" := by
  intro l
  induction l with
  | nil => simp [tryPaths]
  | cons p ps ih =>
    by_cases hp : spawnOk p = true
    · simp [tryPaths, hp]
    · simp only [Bool.not_eq_true] at hp
      simp [tryPaths, hp, ih]

theorem pollLoop_all_fail (net : Nat → HttpResult) :
    ∀ fuel i, (∀ j, i ≤ j → j < i + fuel → check_daemon (net j) = false) →
      pollLoop net i fuel =
        (Except.error "Daemon failed to start",
          (List.replicate fuel [Event.sleep 500, Event.probe false]).flatten) := by
  intro fuel
  induction fuel with
  | zero => intro i _; rfl
  | succ f ih =>
    intro i h
    have hi : check_daemon (net i) = false := h i (Nat.le_refl i) (by omega)
    have ht := ih (i + 1) (fun j h1 h2 => h j (by omega) (by omega))
    simp [pollLoop, hi, ht, List.replicate_succ]

theorem pollLoop_success (net : Nat → HttpResult) :
    ∀ m fuel i, m < fuel →
      (∀ j, i ≤ j → j < i + m → check_daemon (net j) = false) →
      check_daemon (net (i + m)) = true →
      pollLoop net i fuel =
        (Except.ok "started",
          (List.replicate m [Event.sleep 500, Event.probe false]).flatten
            ++ [Event.sleep 500, Event.probe true]) := by
  intro m
  induction m with
  | zero =>
    intro fuel i hf _ hat
    cases fuel with
    | zero => omega
    | succ f =>
      simp only [Nat.add_zero] at hat
      simp [pollLoop, hat]
  | succ m ih =>
    intro fuel i hf hbefore hat
    cases fuel with
    | zero => omega
    | succ f =>
      have hi : check_daemon (net i) = false := hbefore i (Nat.le_refl i) (by omega)
      have hrec := ih f (i + 1) (by omega)
        (fun j h1 h2 => hbefore j (by omega) (by omega))
        (by have : i + 1 + m = i + (m + 1) := by omega
            rw [this]; exact hat)
      simp [pollLoop, hi, hrec, List.replicate_succ]

theorem pollLoop_result (net : Nat → HttpResult) :
    ∀ fuel i, (pollLoop net i fuel).1 = Except.ok "started" ∨
      (pollLoop net i fuel).1 = Except.error "Daemon failed to start" := by
  intro fuel
  induction fuel with
  | zero => intro i; simp [pollLoop]
  | succ f ih =>
    intro i
    by_cases hi : check_daemon (net i) = true
    · simp [pollLoop, hi]
    · simp only [Bool.not_eq_true] at hi
      simp [pollLoop, hi, ih (i + 1)]

theorem pollLoop_head_sleep (net : Nat → HttpResult) (f i : Nat) :
    ((pollLoop net i (f + 1)).2)[0]? = some (Event.sleep 500) := by
  by_cases hi : check_daemon (net i) = true
  · simp [pollLoop, hi]
  · simp only [Bool.not_eq_true] at hi
    simp [pollLoop, hi]

theorem pollLoop_sleep_before_probe (net : Nat → HttpResult) :
    ∀ fuel i n b, ((pollLoop net i fuel).2)[n]? = some (Event.probe b) →
      ∃ m, n = m + 1 ∧ ((pollLoop net i fuel).2)[m]? = some (Event.sleep 500) := by
  intro fuel
  induction fuel with
  | zero => intro i n b h; simp [pollLoop] at h
  | succ f ih =>
    intro i n b h
    by_cases hi : check_daemon (net i) = true
    · simp only [pollLoop, hi, if_pos] at h ⊢
      rcases n with _ | _ | k
      · simp at h
      · exact ⟨0, rfl, by simp⟩
      · simp at h
    · simp only [Bool.not_eq_true] at hi
      simp only [pollLoop, hi, Bool.false_eq_true, if_false] at h ⊢
      rcases n with _ | _ | k
      · simp at h
      · exact ⟨0, rfl, by simp⟩
      · simp only [List.getElem?_cons_succ] at h
        obtain ⟨m, hm, hs⟩ := ih (i + 1) k b h
        refine ⟨m + 2, by omega, ?_⟩
        simpa using hs

theorem countProbes_append (a b : List Event) :
    countProbes (a ++ b) = countProbes a + countProbes b := by
  simp [countProbes, List.filter_append]

theorem countProbes_cons_probe (b : Bool) (l : List Event) :
    countProbes (Event.probe b :: l) = countProbes l + 1 := by
  simp [countProbes, Event.isProbe, Nat.add_comm]

theorem countProbes_cons_sleep (ms : Nat) (l : List Event) :
    countProbes (Event.sleep ms :: l) = countProbes l := by
  simp [countProbes, Event.isProbe]

theorem countProbes_spawnMap (l : List String) :
    countProbes (l.map Event.spawnAttempt) = 0 := by
  induction l with
  | nil => rfl
  | cons p ps ih =>
    rw [List.map_cons]
    simp [countProbes, Event.isProbe]

theorem countProbes_failBlocks (m : Nat) :
    countProbes ((List.replicate m [Event.sleep 500, Event.probe false]).flatten) = m := by
  induction m with
  | zero => rfl
  | succ k ih =>
    rw [List.replicate_succ, List.flatten_cons, countProbes_append, ih]
    simp [countProbes, Event.isProbe, Nat.add_comm]

theorem countSpawns_spawnMap (l : List String) :
    countSpawns (l.map Event.spawnAttempt) = l.length := by
  induction l with
  | nil => rfl
  | cons p ps ih => simpa [countSpawns, Event.isSpawn] using ih

theorem ensure_daemon_healthy (w : World) (h : check_daemon (w.net 0) = true) :
    ensure_daemon w = (Except.ok "already_running", [Event.probe true]) := by
  simp [ensure_daemon, h]

theorem ensure_daemon_map_healthy :
    ∀ ws : List World, (∀ w ∈ ws, check_daemon (w.net 0) = true) →
      ws.map ensure_daemon = List.replicate ws.length
        ((Except.ok "already_running", [Event.probe true]) :
          Except String String × List Event) := by
  intro ws
  induction ws with
  | nil => intro _; rfl
  | cons w t ih =>
    intro h
    have hw := ensure_daemon_healthy w (h w (List.mem_cons_self w t))
    have ht := ih (fun v hv => h v (List.mem_cons_of_mem w hv))
    simp [hw, ht, List.replicate_succ]

/-! ## Claims -/

/-- C1: `check_daemon` is a total boolean function of the single
health-endpoint outcome — every transport failure (connection refused,
timeout, reset) and every malformed or non-success response collapses to
`false` — and it returns `true` exactly when a response carrying a
success-class (2xx) status code is received. -/
theorem check_daemon_reachable_iff (r : HttpResult) :
    check_daemon r = true ↔ ∃ s, r = HttpResult.ok s ∧ 200 ≤ s ∧ s ≤ 299 := by
  cases r with
  | ok s => simp [check_daemon, statusIsSuccess]
  | err => simp [check_daemon]

/-- C2: when the initial probe is unreachable, the launch succeeds, and the
health endpoint first becomes reachable on the k-th poll probe (1 ≤ k ≤ 30),
`ensure_daemon` returns `started`; its event trace is the failed initial
probe, the launch's spawn attempts, then exactly k sleep/probe pairs — each
probe preceded by the fixed 500 ms sleep — ending at the first reachable
probe with nothing after it; the whole call performs k + 1 probes (the
initial one plus exactly k during polling). -/
theorem ensure_daemon_started_kth (w : World) (k : Nat)
    (hk1 : 1 ≤ k) (hk30 : k ≤ 30)
    (h0 : check_daemon (w.net 0) = false)
    (hlaunch : (start_daemon w.env).1 = Except.ok ())
    (hbefore : ∀ i, 1 ≤ i → i < k → check_daemon (w.net i) = false)
    (hat : check_daemon (w.net k) = true) :
    (ensure_daemon w).1 = Except.ok "started" ∧
    (ensure_daemon w).2 =
      Event.probe false :: (start_daemon w.env).2.map Event.spawnAttempt
        ++ ((List.replicate (k - 1) [Event.sleep 500, Event.probe false]).flatten
            ++ [Event.sleep 500, Event.probe true]) ∧
    countProbes (ensure_daemon w).2 = k + 1 := by
  have hpoll := pollLoop_success w.net (k - 1) 30 1 (by omega)
    (fun j h1 h2 => hbefore j h1 (by omega))
    (by have h1k : 1 + (k - 1) = k := by omega
        rw [h1k]; exact hat)
  have htrace : ensure_daemon w =
      (Except.ok "started",
        Event.probe false :: (start_daemon w.env).2.map Event.spawnAttempt
          ++ ((List.replicate (k - 1) [Event.sleep 500, Event.probe false]).flatten
              ++ [Event.sleep 500, Event.probe true])) := by
    simp [ensure_daemon, h0, hlaunch, hpoll]
  refine ⟨by rw [htrace], by rw [htrace], ?_⟩
  rw [htrace]
  simp only [countProbes_cons_probe, countProbes_append, countProbes_spawnMap,
    countProbes_failBlocks]
  have : countProbes [Event.sleep 500, Event.probe true] = 1 := rfl
  rw [this]
  omega

/-- C3: when the initial probe is unreachable, the launch succeeds, and
every poll probe is unreachable, `ensure_daemon` performs exactly 30 poll
probes — its trace ends after the 30th sleep/probe pair, so there is no
31st — and returns the error `Daemon failed to start`; the whole call
performs 31 probes (the initial one plus exactly 30 during polling). -/
theorem ensure_daemon_timeout_30 (w : World)
    (h0 : check_daemon (w.net 0) = false)
    (hlaunch : (start_daemon w.env).1 = Except.ok ())
    (hnever : ∀ i, 1 ≤ i → check_daemon (w.net i) = false) :
    (ensure_daemon w).1 = Except.error "Daemon failed to start" ∧
    (ensure_daemon w).2 =
      Event.probe false :: (start_daemon w.env).2.map Event.spawnAttempt
        ++ (List.replicate 30 [Event.sleep 500, Event.probe false]).flatten ∧
    countProbes (ensure_daemon w).2 = 31 := by
  have hpoll := pollLoop_all_fail w.net 30 1 (fun j h1 _ => hnever j h1)
  have htrace : ensure_daemon w =
      (Except.error "Daemon failed to start",
        Event.probe false :: (start_daemon w.env).2.map Event.spawnAttempt
          ++ (List.replicate 30 [Event.sleep 500, Event.probe false]).flatten) := by
    simp [ensure_daemon, h0, hlaunch, hpoll]
  refine ⟨by rw [htrace], by rw [htrace], ?_⟩
  rw [htrace]
  simp only [countProbes_cons_probe, countProbes_append, countProbes_spawnMap,
    countProbes_failBlocks]

/-- C4: `ensure_daemon` is idempotent when the daemon is healthy: for any
sequence of calls whose initial probe is reachable, every call returns
`already_running` with a trace of exactly one probe, and no call ever
attempts a spawn. -/
theorem ensure_daemon_idempotent_when_healthy (ws : List World)
    (h : ∀ w ∈ ws, check_daemon (w.net 0) = true) :
    ws.map ensure_daemon = List.replicate ws.length
      ((Except.ok "already_running", [Event.probe true]) :
        Except String String × List Event) ∧
    ∀ w ∈ ws, countSpawns (ensure_daemon w).2 = 0 := by
  refine ⟨ensure_daemon_map_healthy ws h, fun w hw => ?_⟩
  rw [ensure_daemon_healthy w (h w hw)]
  rfl

/-- C5: when the initial probe is unreachable and no candidate path can be
spawned, `ensure_daemon` attempts every candidate exactly once (its trace
contains one spawn attempt per candidate, in order), returns the error
`Could not find or start ugudu daemon`, and performs no health probe after
the launch attempt (the only probe in the whole trace is the initial one). -/
theorem ensure_daemon_launch_not_found (w : World)
    (h0 : check_daemon (w.net 0) = false)
    (hfail : ∀ p ∈ candidatePaths w.env, w.env.spawnOk p = false) :
    (ensure_daemon w).1 = Except.error "Could not find or start ugudu daemon" ∧
    (ensure_daemon w).2 =
      Event.probe false :: (candidatePaths w.env).map Event.spawnAttempt ∧
    countProbes (ensure_daemon w).2 = 1 := by
  have hs : start_daemon w.env =
      (Except.error "Could not find or start ugudu daemon", candidatePaths w.env) :=
    tryPaths_all_fail w.env.spawnOk (candidatePaths w.env) hfail
  have htrace : ensure_daemon w =
      (Except.error "Could not find or start ugudu daemon",
        Event.probe false :: (candidatePaths w.env).map Event.spawnAttempt) := by
    simp [ensure_daemon, h0, hs]
  refine ⟨by rw [htrace], by rw [htrace], ?_⟩
  rw [htrace]
  simp only [countProbes_cons_probe, countProbes_spawnMap]

/-- C6: the candidate list of `start_daemon` is deterministic and fixed in
the order system directory (`/usr/local/bin`), user-local directory
(`$HOME/.local/bin`), ecosystem directory (`$HOME/go/bin`), bare executable
name; the platform affects only the executable filename (a `.exe` suffix on
Windows), not the search order; and whenever every candidate before `p`
fails to spawn and `p` spawns, the launch succeeds having attempted exactly
the candidates up to and including `p`, and no later one. -/
theorem start_daemon_candidate_order (e : Env)
    (l₁ l₂ : List String) (p : String)
    (hsplit : candidatePaths e = l₁ ++ p :: l₂)
    (hfail : ∀ q ∈ l₁, e.spawnOk q = false)
    (hp : e.spawnOk p = true) :
    binaryName e = "ugudu" ++ (if e.os_windows then ".exe" else "") ∧
    candidatePaths e =
      (["/usr/local/bin/", homeStr e ++ "/.local/bin/", homeStr e ++ "/go/bin/"].map
        (fun d => d ++ binaryName e)) ++ [binaryName e] ∧
    start_daemon e = (Except.ok (), l₁ ++ [p]) := by
  refine ⟨?_, rfl, ?_⟩
  · cases hw : e.os_windows <;> simp [binaryName, hw]
  · rw [start_daemon, hsplit]
    exact tryPaths_first_success e.spawnOk l₁ p l₂ hfail hp

/-- C7: when the `HOME` environment variable cannot be determined,
`start_daemon` substitutes the empty string in the two home-based candidate
paths and still iterates the whole candidate list; the missing value is
never itself a failure — the launch fails exactly when every candidate
fails to spawn. -/
theorem start_daemon_home_missing (e : Env) (h : e.home = none) :
    homeStr e = "" ∧
    candidatePaths e =
      [ "/usr/local/bin/" ++ binaryName e,
        "/.local/bin/" ++ binaryName e,
        "/go/bin/" ++ binaryName e,
        binaryName e ] ∧
    ((start_daemon e).1 = Except.error "Could not find or start ugudu daemon" ↔
      ∀ p ∈ candidatePaths e, e.spawnOk p = false) := by
  have hh : homeStr e = "" := by simp [homeStr, h]
  refine ⟨hh, ?_, tryPaths_error_iff e.spawnOk (candidatePaths e)⟩
  simp only [candidatePaths, hh, String.empty_append]

/-- C8 as stated is false: `main`'s setup closure calls
`app.get_webview_window("main").unwrap()`, which panics when the window
lookup returns nothing, so not every operation of the subsystem returns a
value for every input. -/
theorem setup_can_panic_counterexample :
    ¬ (∀ g : String → Option Unit, (setupClosure g).isVal = true) := by
  intro h
  have hv := h (fun _ => none)
  simp [setupClosure, Outcome.isVal] at hv

/-- C8 amended: no failure path of the supervisor operations themselves
terminates the application — the probe, the launcher, `get_daemon_status`
and `ensure_daemon` are total and return only their specified values, and
the warm-up always returns a trace; but `main`'s setup closure returns a
value only when the main-window lookup succeeds (it panics on the
`unwrap` when the window is absent), and `main`'s final `expect` panics
when the framework's run returns an error. -/
theorem supervisor_failure_paths_return_values :
    (∀ r, check_daemon r = true ∨ check_daemon r = false) ∧
    (∀ e, (start_daemon e).1 = Except.ok () ∨
      (start_daemon e).1 = Except.error "Could not find or start ugudu daemon") ∧
    (∀ w, (get_daemon_status w).1 = Except.ok "running" ∨
      (get_daemon_status w).1 = Except.error "Daemon is not running") ∧
    (∀ w, (ensure_daemon w).1 = Except.ok "already_running" ∨
      (ensure_daemon w).1 = Except.ok "started" ∨
      (ensure_daemon w).1 = Except.error "Could not find or start ugudu daemon" ∨
      (ensure_daemon w).1 = Except.error "Daemon failed to start") ∧
    (∀ w, ∃ tr : List Event, warm_up w = tr) ∧
    (∀ g : String → Option Unit, (g "main").isSome = true →
      (setupClosure g).isVal = true) ∧
    (setupClosure (fun _ => none)).isVal = false ∧
    (∀ res, (mainRun res).isVal = true ↔ res = Except.ok ()) := by
  refine ⟨fun r => ?_, fun e => ?_, fun w => ?_, fun w => ?_, fun w => ⟨warm_up w, rfl⟩,
    fun g hg => ?_, rfl, fun res => ?_⟩
  · cases check_daemon r <;> simp
  · exact tryPaths_result e.spawnOk (candidatePaths e)
  · by_cases h : check_daemon (w.net 0) = true
    · simp [get_daemon_status, h]
    · simp only [Bool.not_eq_true] at h
      simp [get_daemon_status, h]
  · by_cases h : check_daemon (w.net 0) = true
    · simp [ensure_daemon, h]
    · simp only [Bool.not_eq_true] at h
      rcases tryPaths_result w.env.spawnOk (candidatePaths w.env) with hs | hs
      · rcases pollLoop_result w.net 30 1 with hp | hp
        · right; left
          simpa [ensure_daemon, h, start_daemon, hs] using hp
        · right; right; right
          simpa [ensure_daemon, h, start_daemon, hs] using hp
      · right; right; left
        simp [ensure_daemon, h, start_daemon, hs]
  · match hg2 : g "main" with
    | some u => simp [setupClosure, hg2, Outcome.isVal]
    | none => rw [hg2] at hg; simp at hg
  · cases res with
    | ok u => simp [mainRun, Outcome.isVal]
    | error u => simp [mainRun, Outcome.isVal]

/-- C9: the startup warm-up probes health exactly once; when reachable it
does nothing further; when unreachable it performs exactly one launch
attempt cycle (its spawn attempts are those of a single `start_daemon`
call, whose outcome is discarded) and then unconditionally the fixed
2-second sleep, with no re-probe and nothing after the sleep. -/
theorem warm_up_single_probe (w : World) :
    countProbes (warm_up w) = 1 ∧
    (check_daemon (w.net 0) = true → warm_up w = [Event.probe true]) ∧
    (check_daemon (w.net 0) = false →
      warm_up w = Event.probe false ::
        (start_daemon w.env).2.map Event.spawnAttempt ++ [Event.sleep 2000] ∧
      countSpawns (warm_up w) = (start_daemon w.env).2.length ∧
      (warm_up w).getLast? = some (Event.sleep 2000)) := by
  by_cases h : check_daemon (w.net 0) = true
  · refine ⟨?_, fun _ => ?_, fun hc => ?_⟩
    · simp [warm_up, h]; rfl
    · simp [warm_up, h]
    · rw [h] at hc; cases hc
  · simp only [Bool.not_eq_true] at h
    have ht : warm_up w = Event.probe false ::
        (start_daemon w.env).2.map Event.spawnAttempt ++ [Event.sleep 2000] := by
      simp [warm_up, h]
    refine ⟨?_, ?_, ?_⟩
    · rw [ht, countProbes_append, countProbes_cons_probe, countProbes_spawnMap]
      rfl
    · intro hc
      rw [h] at hc
      cases hc
    · intro _
      refine ⟨ht, ?_, ?_⟩
      · rw [ht]
        have hsp : countSpawns (Event.probe false ::
            (start_daemon w.env).2.map Event.spawnAttempt ++ [Event.sleep 2000]) =
            countSpawns ((start_daemon w.env).2.map Event.spawnAttempt) := by
          simp [countSpawns, List.filter_append, Event.isSpawn]
        rw [hsp, countSpawns_spawnMap]
      · rw [ht, List.getLast?_concat]

/-- C10: in `ensure_daemon`'s poll loop the 500 ms sleep precedes every
probe: after a successful launch the poll trace begins with a sleep, and
every probe event in it is immediately preceded by a `sleep 500` event —
so a `started` result can only occur after at least one full interval,
even when the daemon is reachable on the very first poll. -/
theorem ensure_daemon_sleep_before_poll (w : World)
    (h0 : check_daemon (w.net 0) = false)
    (hlaunch : (start_daemon w.env).1 = Except.ok ()) :
    (ensure_daemon w).2 =
      Event.probe false :: (start_daemon w.env).2.map Event.spawnAttempt
        ++ (pollLoop w.net 1 30).2 ∧
    ((pollLoop w.net 1 30).2)[0]? = some (Event.sleep 500) ∧
    ∀ n b, ((pollLoop w.net 1 30).2)[n]? = some (Event.probe b) →
      ∃ m, n = m + 1 ∧ ((pollLoop w.net 1 30).2)[m]? = some (Event.sleep 500) := by
  refine ⟨?_, pollLoop_head_sleep w.net 29 1, pollLoop_sleep_before_probe w.net 30 1⟩
  simp [ensure_daemon, h0, hlaunch]

/-! ## Witnesses -/

/-- Witness for C2 at k = 5: daemon first reachable on the 5th poll probe. -/
theorem ensure_daemon_started_kth_witness :
    (ensure_daemon ⟨netUpFrom 5, envAll⟩).1 = Except.ok "started" ∧
    countProbes (ensure_daemon ⟨netUpFrom 5, envAll⟩).2 = 5 + 1 := by
  have h := ensure_daemon_started_kth ⟨netUpFrom 5, envAll⟩ 5 (by decide) (by decide)
    (by decide) rfl
    (fun i _ h2 => by simp [netUpFrom, check_daemon, h2])
    (by decide)
  exact ⟨h.1, h.2.2⟩

/-- Witness for C3: endpoint never reachable, launch succeeds. -/
theorem ensure_daemon_timeout_30_witness :
    (ensure_daemon ⟨netDown, envAll⟩).1 = Except.error "Daemon failed to start" ∧
    countProbes (ensure_daemon ⟨netDown, envAll⟩).2 = 31 := by
  have h := ensure_daemon_timeout_30 ⟨netDown, envAll⟩ rfl rfl (fun _ _ => rfl)
  exact ⟨h.1, h.2.2⟩

/-- Witness for C4 at N = 3: three calls against an always-reachable endpoint. -/
theorem ensure_daemon_idempotent_witness :
    (List.replicate 3 (⟨netUp, envAll⟩ : World)).map ensure_daemon =
      List.replicate 3 ((Except.ok "already_running", [Event.probe true]) :
        Except String String × List Event) := by
  have h := ensure_daemon_idempotent_when_healthy (List.replicate 3 ⟨netUp, envAll⟩)
    (fun w hw => by rw [List.eq_of_mem_replicate hw]; decide)
  simpa using h.1

/-- Witness for C5: endpoint down, no candidate spawns. -/
theorem ensure_daemon_launch_not_found_witness :
    (ensure_daemon ⟨netDown, envNone⟩).1 =
      Except.error "Could not find or start ugudu daemon" ∧
    countProbes (ensure_daemon ⟨netDown, envNone⟩).2 = 1 := by
  have h := ensure_daemon_launch_not_found ⟨netDown, envNone⟩ rfl (fun _ _ => rfl)
  exact ⟨h.1, h.2.2⟩

/-- Witness for C6: the user-local candidate is the earliest that spawns,
and exactly the first two candidates are attempted. -/
theorem start_daemon_candidate_order_witness :
    start_daemon envSecond =
      (Except.ok (), ["/usr/local/bin/ugudu", "/home/user/.local/bin/ugudu"]) := by
  have h := start_daemon_candidate_order envSecond
    ["/usr/local/bin/ugudu"] ["/home/user/go/bin/ugudu", "ugudu"]
    "/home/user/.local/bin/ugudu" (by decide) (by decide) (by decide)
  simpa using h.2.2

/-- Witness for C7: with `HOME` missing the home-based segments are empty. -/
theorem start_daemon_home_missing_witness :
    candidatePaths envNoHome =
      [ "/usr/local/bin/" ++ binaryName envNoHome,
        "/.local/bin/" ++ binaryName envNoHome,
        "/go/bin/" ++ binaryName envNoHome,
        binaryName envNoHome ] :=
  (start_daemon_home_missing envNoHome rfl).2.1

/-- Witness for the amended C8: the setup closure returns a value when the
main window exists. -/
theorem supervisor_failure_paths_return_values_witness :
    (setupClosure (fun _ => some ())).isVal = true :=
  supervisor_failure_paths_return_values.2.2.2.2.2.1 (fun _ => some ()) rfl

/-- Witness for C9: endpoint down, so the warm-up probes once, attempts the
launch, and sleeps 2 s. -/
theorem warm_up_single_probe_witness :
    countProbes (warm_up ⟨netDown, envAll⟩) = 1 ∧
    warm_up ⟨netDown, envAll⟩ = Event.probe false ::
      (start_daemon envAll).2.map Event.spawnAttempt ++ [Event.sleep 2000] := by
  have h := warm_up_single_probe ⟨netDown, envAll⟩
  exact ⟨h.1, (h.2.2 rfl).1⟩

/-- Witness for C10: daemon healthy immediately after the launch — the poll
trace still begins with the 500 ms sleep. -/
theorem ensure_daemon_sleep_before_poll_witness :
    (ensure_daemon (⟨netUpFrom 1, envAll⟩ : World)).2 =
      Event.probe false :: (start_daemon envAll).2.map Event.spawnAttempt
        ++ (pollLoop (netUpFrom 1) 1 30).2 ∧
    ((pollLoop (netUpFrom 1) 1 30).2)[0]? = some (Event.sleep 500) := by
  have h := ensure_daemon_sleep_before_poll ⟨netUpFrom 1, envAll⟩ (by decide) rfl
  exact ⟨h.1, h.2.1⟩
